import Mathlib

/-!
# Verification of the AriaPythonScripts TicSync orchestration scripts

This file is a shallow embedding of the multi-device TicSync orchestration
code found in `ticsync/ticsync_cleanup.py` and `ticsync/ticsync_recording.py`.

The external `aria.sdk` Device Link collaborator (spec section 6) is modelled
as a small pure state machine: a `DeviceState` record with the flags the
scripts read and mutate (recording state, keep-wifi-on, DDS-RPC state,
hotspot state, currently joined Wi-Fi network).  Unbounded Python `while`
loops are embedded as fuel-indexed recursions: properties are proved for
every fuel value, and "runs forever" is rendered as "for every fuel the
loop reports fuel exhaustion rather than an exit".  Fallible SDK calls
(`DeviceClient.connect`) are modelled through an environment function that
says whether a given connect attempt succeeds, mirroring the
`DeviceHandle | ConnectError` contract; the Python sources install no
exception handler, so a failed connect propagates out of the embedded
function exactly as an uncaught exception would.
-/

namespace AriaTicSync

/-- `aria.RecordingState` as read by the scripts (only the `Recording`
tag is ever compared against). -/
inductive RecordingState
  | Recording
  | NotRecording
deriving DecidableEq, Repr

/-- `aria.DdsRpcState`. -/
inductive DdsRpcState
  | On
  | Off
deriving DecidableEq, Repr

/-- `aria.SynchronizationStability` as read from `tic_sync_status`. -/
inductive SynchronizationStability
  | Stable
  | Converging
deriving DecidableEq, Repr

/-- State of one physical device as observed and mutated through the
Device Link collaborator: the recording flag, the keep-wifi-on flag, the
DDS-RPC flag, the hotspot flag and the SSID of the Wi-Fi network the
device is currently joined to (`none` when it is joined to no network).
These are exactly the fields `generic_cleanup`, `cleanup_hotspot` and
`server_device_cleanup` in `ticsync_cleanup.py` touch. -/
structure DeviceState where
  recording : RecordingState
  keepWifiOn : Bool
  ddsRpc : DdsRpcState
  hotspotOn : Bool
  wifiSsid : Option String
deriving DecidableEq, Repr

/-- `recording_manager.stop_recording()`. -/
def stop_recording (d : DeviceState) : DeviceState :=
  { d with recording := RecordingState.NotRecording }

/-- `wifi_manager.keep_wifi_on(b)`. -/
def keep_wifi_on (b : Bool) (d : DeviceState) : DeviceState :=
  { d with keepWifiOn := b }

/-- `device.set_dds_rpc_enabled(b, interface)`. -/
def set_dds_rpc_enabled (b : Bool) (d : DeviceState) : DeviceState :=
  { d with ddsRpc := if b then DdsRpcState.On else DdsRpcState.Off }

/-- `wifi_manager.set_device_hotspot_status(enabled, use5Ghz, country)`:
only the enabled flag is part of the observed device state. -/
def set_device_hotspot_status (enabled : Bool) (d : DeviceState) : DeviceState :=
  { d with hotspotOn := enabled }

/-- `wifi_manager.forget_wifi(ssid)`: forgetting the currently joined
network also drops the device off that network, so the observed
`wifi_status.network.ssid` no longer equals `ssid` afterwards. -/
def forget_wifi (ssid : String) (d : DeviceState) : DeviceState :=
  if d.wifiSsid = some ssid then { d with wifiSsid := none } else d

/-- `ticsync_cleanup.cleanup_hotspot(device, server_hotspot_ssid)`:
if the device is currently on the server hotspot network, turn
keep-wifi-on off and forget that network; otherwise do nothing. -/
def cleanup_hotspot (serverHotspotSsid : String) (d : DeviceState) : DeviceState :=
  if d.wifiSsid = some serverHotspotSsid then
    forget_wifi serverHotspotSsid (keep_wifi_on false d)
  else d

/-- `ticsync_cleanup.client_devices_cleanup(client_devices, ssid)`:
run `cleanup_hotspot` on every client device. -/
def client_devices_cleanup (serverHotspotSsid : String)
    (clients : List DeviceState) : List DeviceState :=
  clients.map (cleanup_hotspot serverHotspotSsid)

/-- `ticsync_cleanup.server_device_cleanup(server_device)`: disable
DDS RPC if it is on, then unconditionally disable the hotspot. -/
def server_device_cleanup (d : DeviceState) : DeviceState :=
  set_device_hotspot_status false
    (if d.ddsRpc = DdsRpcState.On then set_dds_rpc_enabled false d else d)

/-- `ticsync_cleanup.generic_cleanup(device)`: stop recording if
recording, turn keep-wifi-on off, disable DDS RPC if it is on, disable
the hotspot. -/
def generic_cleanup (d : DeviceState) : DeviceState :=
  set_device_hotspot_status false
    ((fun d2 => if d2.ddsRpc = DdsRpcState.On then set_dds_rpc_enabled false d2 else d2)
      (keep_wifi_on false
        (if d.recording = RecordingState.Recording then stop_recording d else d)))

/-- The known-role cleanup path of `ticsync_cleanup.main`:
`client_devices_cleanup` on all clients followed by
`server_device_cleanup` on the server. -/
def known_role_cleanup (serverHotspotSsid : String)
    (server : DeviceState) (clients : List DeviceState) :
    DeviceState × List DeviceState :=
  (server_device_cleanup server, client_devices_cleanup serverHotspotSsid clients)

theorem cleanup_hotspot_idem (ssid : String) (d : DeviceState) :
    cleanup_hotspot ssid (cleanup_hotspot ssid d) = cleanup_hotspot ssid d := by
  unfold cleanup_hotspot forget_wifi keep_wifi_on
  by_cases h : d.wifiSsid = some ssid <;> simp [h]

theorem server_device_cleanup_idem (d : DeviceState) :
    server_device_cleanup (server_device_cleanup d) = server_device_cleanup d := by
  unfold server_device_cleanup set_device_hotspot_status set_dds_rpc_enabled
  by_cases h : d.ddsRpc = DdsRpcState.On <;> simp [h]

theorem generic_cleanup_idem (d : DeviceState) :
    generic_cleanup (generic_cleanup d) = generic_cleanup d := by
  unfold generic_cleanup set_device_hotspot_status set_dds_rpc_enabled
    keep_wifi_on stop_recording
  by_cases h1 : d.recording = RecordingState.Recording <;>
    by_cases h2 : d.ddsRpc = DdsRpcState.On <;> simp [h1, h2]

/-! ## The stability-wait loop of `ticsync_recording.main`

`while not all(_is_stable(manager) for manager in
client_recording_managers.values()): time.sleep(5)` — each evaluation of
the loop condition is one polling round; the loop exits exactly when a
round reports every client Stable, and only then is the readiness message
printed.  The environment `stab k c` gives the `synchronization_stability`
client `c` reports during polling round `k`. -/

/-- One polling round: every client recording manager reports
`Stable` in round `k`. -/
def all_clients_stable (stab : Nat → String → SynchronizationStability)
    (clients : List String) (k : Nat) : Bool :=
  clients.all fun c => stab k c = SynchronizationStability.Stable

/-- The fuel-indexed stability-wait loop: starting from polling round
`k`, return `some j` when the loop exits after round `j` found every
client stable, or `none` when `fuel` rounds were exhausted with the
loop still active. -/
def stability_wait (stab : Nat → String → SynchronizationStability)
    (clients : List String) : Nat → Nat → Option Nat
  | 0, _ => none
  | fuel + 1, k =>
      if all_clients_stable stab clients k then some k
      else stability_wait stab clients fuel (k + 1)

theorem stability_wait_exit_all_stable
    (stab : Nat → String → SynchronizationStability) (clients : List String) :
    ∀ fuel k j, stability_wait stab clients fuel k = some j →
      all_clients_stable stab clients j = true := by
  intro fuel
  induction fuel with
  | zero => intro k j h; simp [stability_wait] at h
  | succ n ih =>
      intro k j h
      unfold stability_wait at h
      by_cases hs : all_clients_stable stab clients k
      · simp [hs] at h; exact h ▸ hs
      · simp [hs] at h; exact ih (k + 1) j h

theorem stability_wait_never_exits
    (stab : Nat → String → SynchronizationStability) (clients : List String)
    (h : ∀ j, ∃ c ∈ clients, stab j c = SynchronizationStability.Converging) :
    ∀ fuel k, stability_wait stab clients fuel k = none := by
  intro fuel
  induction fuel with
  | zero => intro k; rfl
  | succ n ih =>
      intro k
      obtain ⟨c, hc, hconv⟩ := h k
      have hfalse : all_clients_stable stab clients k = false := by
        cases hbool : all_clients_stable stab clients k with
        | false => rfl
        | true =>
            exfalso
            unfold all_clients_stable at hbool
            have := List.all_eq_true.mp hbool c hc
            rw [decide_eq_true_eq, hconv] at this
            exact SynchronizationStability.noConfusion this
      unfold stability_wait
      rw [hfalse]
      simpa using ih (k + 1)

theorem client_devices_cleanup_idem (ssid : String) (clients : List DeviceState) :
    client_devices_cleanup ssid (client_devices_cleanup ssid clients) =
      client_devices_cleanup ssid clients := by
  induction clients with
  | nil => rfl
  | cons d rest ih =>
      unfold client_devices_cleanup at ih ⊢
      simp only [List.map_cons, List.map_map] at ih ⊢
      exact List.cons_eq_cons.mpr ⟨cleanup_hotspot_idem ssid d, ih⟩

/-- C4: `generic_cleanup`, applied to a device in any combination of
{recording, hotspot-on, rpc-on, wifi-kept-on} (and any joined network),
yields a state that is not recording, with hotspot off, DDS RPC off and
keep-wifi-on off. -/
theorem c4_generic_cleanup_resets (d : DeviceState) :
    (generic_cleanup d).recording = RecordingState.NotRecording
    ∧ (generic_cleanup d).hotspotOn = false
    ∧ (generic_cleanup d).ddsRpc = DdsRpcState.Off
    ∧ (generic_cleanup d).keepWifiOn = false := by
  unfold generic_cleanup set_device_hotspot_status set_dds_rpc_enabled
    keep_wifi_on stop_recording
  rcases d with ⟨rec, kw, rpc, hs, ssid⟩
  cases rec <;> cases rpc <;> simp

/-- C5: cleanup is idempotent — the known-role path
(`client_devices_cleanup` on all clients followed by
`server_device_cleanup` on the server) applied twice gives the same
state as applied once, and so does `generic_cleanup` on the
generic path. -/
theorem c5_cleanup_idempotent (ssid : String) (server : DeviceState)
    (clients : List DeviceState) :
    known_role_cleanup ssid (known_role_cleanup ssid server clients).1
        (known_role_cleanup ssid server clients).2
      = known_role_cleanup ssid server clients
    ∧ ∀ d : DeviceState, generic_cleanup (generic_cleanup d) = generic_cleanup d := by
  constructor
  · unfold known_role_cleanup
    exact Prod.ext (server_device_cleanup_idem server)
      (client_devices_cleanup_idem ssid clients)
  · exact generic_cleanup_idem

/-- C2: the stability-wait loop of `ticsync_recording.main` signals
readiness only when a polling round found every client Stable, and if
at least one client reports Converging on every round, the loop never
exits, whatever the fuel. -/
theorem c2_stability_gate (stab : Nat → String → SynchronizationStability)
    (clients : List String) (fuel k : Nat) :
    (∀ j, stability_wait stab clients fuel k = some j →
        all_clients_stable stab clients j = true)
    ∧ ((∀ j, ∃ c ∈ clients, stab j c = SynchronizationStability.Converging) →
        stability_wait stab clients fuel k = none) :=
  ⟨fun j h => stability_wait_exit_all_stable stab clients fuel k j h,
   fun h => stability_wait_never_exits stab clients h fuel k⟩

/-- Witness for C2 at a concrete input: a single client that reports
Converging on every polling round keeps the loop active for its whole
fuel budget. -/
theorem c2_stability_gate_witness :
    stability_wait (fun _ _ => SynchronizationStability.Converging) ["client1"] 4 0
      = none :=
  (c2_stability_gate (fun _ _ => SynchronizationStability.Converging)
      ["client1"] 4 0).2
    (fun _ => ⟨"client1", by simp, rfl⟩)

/-! ## The Reconnect Supervisor: `ticsync_cleanup.reconnect_devices`

The supervisor loops `while len(reconnected_devices) != len(client_serials) + 1`,
on each pass attempting `connect_and_stop_recording` for every client
serial not yet in the reconnected set, then — once the set holds every
client — for the server serial.  `DeviceClient.connect` follows the
`DeviceHandle | ConnectError` Device Link contract: the environment
function `attach t s` says whether the `t`-th connect attempt of the run
(aimed at serial `s`) succeeds.  The Python source installs no exception
handler, so a raising connect aborts the loop; the embedding mirrors this
by stopping with `connectFailed`.  Each execution of a
`reconnected_devices.add(...)` statement is recorded as an event, so the
order in which serials enter the reconnected set is observable. -/

/-- One execution of a `reconnected_devices.add(...)` statement:
either the per-client add inside the client loop or the server add
after it. -/
inductive RcEvent
  | addClient (serial : String)
  | addServer (serial : String)
deriving DecidableEq, Repr

/-- How a (fuel-bounded) run of `reconnect_devices` ended. -/
inductive RcStatus
  | done
  | connectFailed
  | outOfFuel
deriving DecidableEq, Repr

/-- One pass of the `for serial in client_serials` loop: skip serials
already reconnected, otherwise attempt a connect; on success record the
add event and grow the reconnected set (a duplicate-free list), on
failure stop the pass with the fourth component `false` (the uncaught
`ConnectError`).  Returns (events, next attempt counter, reconnected
set, pass completed without an exception). -/
def client_pass (attach : Nat → String → Bool) :
    List String → Nat → List String → List RcEvent × Nat × List String × Bool
  | [], t, rec => ([], t, rec, true)
  | s :: rest, t, rec =>
    if s ∈ rec then client_pass attach rest t rec
    else if attach t s then
      let r := client_pass attach rest (t + 1) (rec ++ [s])
      (RcEvent.addClient s :: r.1, r.2)
    else ([], t + 1, rec, false)

/-- The `while len(reconnected_devices) != len(client_serials) + 1` loop
of `reconnect_devices`, fuel-indexed.  After a client pass the source
re-checks `len(reconnected_devices) != len(client_serials)` and, only
when every client is reconnected, attempts the server serial and adds it
to the set. -/
def reconnect_go (attach : Nat → String → Bool) (server : String)
    (clients : List String) : Nat → Nat → List String → List RcEvent × RcStatus
  | 0, _, _ => ([], RcStatus.outOfFuel)
  | fuel + 1, t, rec =>
    if rec.length = clients.length + 1 then ([], RcStatus.done)
    else
      let cp := client_pass attach clients t rec
      if cp.2.2.2 = false then (cp.1, RcStatus.connectFailed)
      else if cp.2.2.1.length ≠ clients.length then
        let r := reconnect_go attach server clients fuel cp.2.1 cp.2.2.1
        (cp.1 ++ r.1, r.2)
      else if attach cp.2.1 server then
        let rec3 := if server ∈ cp.2.2.1 then cp.2.2.1 else cp.2.2.1 ++ [server]
        let r := reconnect_go attach server clients fuel (cp.2.1 + 1) rec3
        (cp.1 ++ RcEvent.addServer server :: r.1, r.2)
      else (cp.1, RcStatus.connectFailed)

/-- `ticsync_cleanup.reconnect_devices(server_serial, client_serials, ...)`:
run the reconnect loop from an empty reconnected set. -/
def reconnect_devices (attach : Nat → String → Bool) (server : String)
    (clients : List String) (fuel : Nat) : List RcEvent × RcStatus :=
  reconnect_go attach server clients fuel 0 []

/-- Every client serial already has an add event in the trace. -/
def all_clients_added (clients : List String) (tr : List RcEvent) : Prop :=
  ∀ c ∈ clients, RcEvent.addClient c ∈ tr

/-- Wherever a server-side add occurs in the trace, every client serial
was already added strictly before it. -/
def server_after_clients (clients : List String) (tr : List RcEvent) : Prop :=
  ∀ (tr1 tr2 : List RcEvent) (s : String),
    tr = tr1 ++ RcEvent.addServer s :: tr2 → all_clients_added clients tr1

theorem all_clients_added_append (clients : List String) (u v : List RcEvent)
    (h : all_clients_added clients u) : all_clients_added clients (u ++ v) :=
  fun c hc => List.mem_append_left v (h c hc)

theorem server_after_clients_nil (clients : List String) :
    server_after_clients clients [] := by
  intro tr1 tr2 s heq
  exact absurd heq (by simp)

theorem server_after_clients_append_clients (clients : List String)
    (u v : List RcEvent) (hu : server_after_clients clients u)
    (hv : ∀ e ∈ v, ∃ s, e = RcEvent.addClient s) :
    server_after_clients clients (u ++ v) := by
  intro tr1 tr2 s heq
  rw [List.append_eq_append_iff] at heq
  rcases heq with ⟨w, _, hw2⟩ | ⟨w, hw1, hw2⟩
  · obtain ⟨s', hs'⟩ := hv (RcEvent.addServer s)
      (hw2 ▸ List.mem_append_right w (List.mem_cons_self _ _))
    exact RcEvent.noConfusion hs'
  · cases w with
    | nil =>
        rw [List.nil_append] at hw2
        obtain ⟨s', hs'⟩ := hv (RcEvent.addServer s)
          (by rw [← hw2]; exact List.mem_cons_self _ _)
        exact RcEvent.noConfusion hs'
    | cons e w' =>
        obtain ⟨he, _⟩ := List.cons_eq_cons.mp hw2
        exact hu tr1 w' s (by rw [hw1, he])

theorem server_after_clients_append_server (clients : List String)
    (u : List RcEvent) (s0 : String) (hu : server_after_clients clients u)
    (hall : all_clients_added clients u) :
    server_after_clients clients (u ++ [RcEvent.addServer s0]) := by
  intro tr1 tr2 s heq
  rw [List.append_eq_append_iff] at heq
  rcases heq with ⟨w, hw1, hw2⟩ | ⟨w, hw1, hw2⟩
  · cases w with
    | nil => rw [hw1]; simpa using hall
    | cons e w' =>
        rw [List.cons_append] at hw2
        obtain ⟨_, htl⟩ := List.cons_eq_cons.mp hw2
        exact absurd htl.symm (by simp)
  · cases w with
    | nil => rw [List.append_nil] at hw1; rw [← hw1]; exact hall
    | cons e w' =>
        rw [List.cons_append] at hw2
        obtain ⟨he, _⟩ := List.cons_eq_cons.mp hw2
        exact hu tr1 w' s (by rw [hw1, ← he])

theorem client_pass_events (attach : Nat → String → Bool) :
    ∀ (l : List String) (t : Nat) (rec : List String),
      ∀ e ∈ (client_pass attach l t rec).1, ∃ s, e = RcEvent.addClient s := by
  intro l
  induction l with
  | nil => intro t rec e he; simp [client_pass] at he
  | cons s rest ih =>
      intro t rec e he
      unfold client_pass at he
      by_cases hmem : s ∈ rec
      · simp only [if_pos hmem] at he
        exact ih t rec e he
      · simp only [if_neg hmem] at he
        by_cases hat : attach t s
        · simp only [if_pos hat, List.mem_cons] at he
          rcases he with he | he
          · exact ⟨s, he⟩
          · exact ih (t + 1) (rec ++ [s]) e he
        · simp [if_neg hat] at he

theorem client_pass_mono (attach : Nat → String → Bool) :
    ∀ (l : List String) (t : Nat) (rec : List String),
      ∀ x ∈ rec, x ∈ (client_pass attach l t rec).2.2.1 := by
  intro l
  induction l with
  | nil => intro t rec x hx; simpa [client_pass] using hx
  | cons s rest ih =>
      intro t rec x hx
      unfold client_pass
      by_cases hmem : s ∈ rec
      · simp only [if_pos hmem]
        exact ih t rec x hx
      · simp only [if_neg hmem]
        by_cases hat : attach t s
        · simp only [if_pos hat]
          exact ih (t + 1) (rec ++ [s]) x (List.mem_append_left [s] hx)
        · simpa [if_neg hat] using hx

theorem client_pass_new (attach : Nat → String → Bool) :
    ∀ (l : List String) (t : Nat) (rec : List String) (x : String),
      x ∈ (client_pass attach l t rec).2.2.1 →
        x ∈ rec ∨ RcEvent.addClient x ∈ (client_pass attach l t rec).1 := by
  intro l
  induction l with
  | nil => intro t rec x hx; simp [client_pass] at hx; exact Or.inl hx
  | cons s rest ih =>
      intro t rec x hx
      unfold client_pass at hx ⊢
      by_cases hmem : s ∈ rec
      · simp only [if_pos hmem] at hx ⊢
        exact ih t rec x hx
      · simp only [if_neg hmem] at hx ⊢
        by_cases hat : attach t s
        · simp only [if_pos hat] at hx ⊢
          rcases ih (t + 1) (rec ++ [s]) x hx with hx' | hx'
          · rcases List.mem_append.mp hx' with h | h
            · exact Or.inl h
            · simp only [List.mem_singleton] at h
              exact Or.inr (by rw [h]; exact List.mem_cons_self _ _)
          · exact Or.inr (List.mem_cons_of_mem _ hx')
        · simp only [if_neg hat] at hx ⊢
          exact Or.inl hx

theorem client_pass_covers (attach : Nat → String → Bool) :
    ∀ (l : List String) (t : Nat) (rec : List String),
      (client_pass attach l t rec).2.2.2 = true →
        ∀ c ∈ l, c ∈ (client_pass attach l t rec).2.2.1 := by
  intro l
  induction l with
  | nil => intro t rec _ c hc; simp at hc
  | cons s rest ih =>
      intro t rec hok c hc
      unfold client_pass at hok ⊢
      by_cases hmem : s ∈ rec
      · simp only [if_pos hmem] at hok ⊢
        rcases List.mem_cons.mp hc with hc | hc
        · exact client_pass_mono attach rest t rec c (hc ▸ hmem)
        · exact ih t rec hok c hc
      · simp only [if_neg hmem] at hok ⊢
        by_cases hat : attach t s
        · simp only [if_pos hat] at hok ⊢
          rcases List.mem_cons.mp hc with hc | hc
          · exact client_pass_mono attach rest (t + 1) (rec ++ [s]) c
              (by rw [hc]; exact List.mem_append_right rec (List.mem_singleton_self s))
          · exact ih (t + 1) (rec ++ [s]) hok c hc
        · simp [if_neg hat] at hok

theorem reconnect_go_server_after_clients (attach : Nat → String → Bool)
    (server : String) (clients : List String) :
    ∀ (fuel t : Nat) (rec : List String) (hist : List RcEvent),
      server_after_clients clients hist →
      (all_clients_added clients hist ∨
        ∀ c ∈ clients, c ∈ rec → RcEvent.addClient c ∈ hist) →
      server_after_clients clients
        (hist ++ (reconnect_go attach server clients fuel t rec).1) := by
  intro fuel
  induction fuel with
  | zero =>
      intro t rec hist hh _
      simpa [reconnect_go] using hh
  | succ n ih =>
      intro t rec hist hh hinv
      have hps := client_pass_events attach clients t rec
      have hnew := client_pass_new attach clients t rec
      have hcov := client_pass_covers attach clients t rec
      unfold reconnect_go
      by_cases hlen : rec.length = clients.length + 1
      · simpa [hlen] using hh
      simp only [if_neg hlen]
      rcases hcp : client_pass attach clients t rec with ⟨evs, t2, rec2, ok⟩
      rw [hcp] at hps hnew hcov
      dsimp only at hps hnew hcov ⊢
      have hh2 : server_after_clients clients (hist ++ evs) :=
        server_after_clients_append_clients clients hist evs hh hps
      have hinv2 : all_clients_added clients (hist ++ evs) ∨
          ∀ c ∈ clients, c ∈ rec2 → RcEvent.addClient c ∈ hist ++ evs := by
        rcases hinv with hl | hr
        · exact Or.inl (all_clients_added_append clients hist evs hl)
        · refine Or.inr fun c hc hcr => ?_
          rcases hnew c hcr with h | h
          · exact List.mem_append_left evs (hr c hc h)
          · exact List.mem_append_right hist h
      cases ok with
      | false =>
          simp only [if_pos rfl]
          exact hh2
      | true =>
          have hne : ¬ (true = false) := by simp
          simp only [if_neg hne]
          by_cases hlen2 : rec2.length ≠ clients.length
          · simp only [if_pos hlen2]
            have := ih t2 rec2 (hist ++ evs) hh2 hinv2
            simpa [List.append_assoc] using this
          · simp only [if_neg hlen2]
            by_cases hat : attach t2 server
            · simp only [if_pos hat]
              have hcovered : ∀ c ∈ clients, c ∈ rec2 := hcov rfl
              have hall2 : all_clients_added clients (hist ++ evs) := by
                rcases hinv2 with hl | hr
                · exact hl
                · exact fun c hc => hr c hc (hcovered c hc)
              have hh3 : server_after_clients clients
                  ((hist ++ evs) ++ [RcEvent.addServer server]) :=
                server_after_clients_append_server clients (hist ++ evs) server hh2 hall2
              have := ih (t2 + 1) (if server ∈ rec2 then rec2 else rec2 ++ [server])
                ((hist ++ evs) ++ [RcEvent.addServer server]) hh3
                (Or.inl (all_clients_added_append clients (hist ++ evs)
                  [RcEvent.addServer server] hall2))
              simpa [List.append_assoc] using this
            · simp only [if_neg hat]
              exact hh2

/-- C3: in the Reconnect Supervisor `reconnect_devices`, for every
server serial, client-serial list, attach environment and fuel, the
server-side `reconnected_devices.add` never happens before every client
serial is already in the reconnected set. -/
theorem c3_server_reconnected_last (attach : Nat → String → Bool)
    (server : String) (clients : List String) (fuel : Nat) :
    server_after_clients clients (reconnect_devices attach server clients fuel).1 := by
  have := reconnect_go_server_after_clients attach server clients fuel 0 [] []
    (server_after_clients_nil clients) (Or.inr (by intro c _ hc; simp at hc))
  simpa [reconnect_devices] using this

/-- Witness for C3 at a concrete run: one client, all devices attached;
the produced trace is client add then server add, and applying the
theorem at its decomposition yields the client membership fact. -/
theorem c3_server_reconnected_last_witness :
    RcEvent.addClient "client1" ∈ [RcEvent.addClient "client1"] :=
  c3_server_reconnected_last (fun _ _ => true) "server1" ["client1"] 3
    [RcEvent.addClient "client1"] [] "server1" (by decide) "client1" (by simp)

/-- C7 (evaluation at the failing input): with a single client whose
first connect attempt fails, `reconnect_devices` stops with the
propagated connect failure — the uncaught `ConnectError` is terminal
for the whole loop rather than being retried on a later pass. -/
theorem c7_connect_failure_terminal :
    reconnect_devices (fun _ _ => false) "server1" ["client1"] 5
      = ([], RcStatus.connectFailed) := by decide

/-! ## Role detection: `ticsync_cleanup.detect_and_reconnect_devices`

The detection phase (everything before the final `reconnect_devices`
call) first asserts that the number of attached devices equals the
requested total, then loops up to 10 retries: in each pass it connects
to every not-yet-detected serial, reads its `dds_rpc_enabled_status` and
classifies it as the server (status On — `server_serial` is overwritten)
or appends it to `client_serials`.  The loop breaks early once
`len(client_serials) + 1 == total_num_devices`; if the retry budget is
exhausted the function returns `[None, None]`.  The environment `rpcOn s`
gives the DDS-RPC status serial `s` reports when it is read (each serial
is read at most once, thanks to the `detected_devices` set).  Session
events record every `device_client.connect()`; the source contains no
`disconnect` call, and the trace makes that observable. -/

/-- A Device Link session operation performed during detection. -/
inductive SessEvent
  | connect (serial : String)
  | disconnect (serial : String)
deriving DecidableEq, Repr

/-- Recognises a session-close event. -/
def SessEvent.isDisconnect : SessEvent → Bool
  | SessEvent.disconnect _ => true
  | _ => false

/-- Python exceptions surfaced by the scripts. -/
inductive PyError
  | assertionError (msg : String)
  | typeError (msg : String)
  | indexError
deriving DecidableEq, Repr

/-- One pass of the `for [serial, _] in devices` classification loop:
skip already-detected serials; otherwise connect, mark detected, and
classify by the DDS-RPC status (On overwrites `server_serial`, Off
appends to `client_serials`). -/
def detect_pass (rpcOn : String → Bool) :
    List String → List String → Option String → List String →
      List SessEvent × List String × Option String × List String
  | [], detected, server, clients => ([], detected, server, clients)
  | s :: rest, detected, server, clients =>
    if s ∈ detected then detect_pass rpcOn rest detected server clients
    else
      let r := detect_pass rpcOn rest (detected ++ [s])
        (if rpcOn s then some s else server)
        (clients ++ if rpcOn s then [] else [s])
      (SessEvent.connect s :: r.1, r.2)

/-- The `while retries < 10` classification loop.  The break condition
`len(client_serials) + 1 == total_num_devices` is checked at the top of
each iteration; when the fuel (the remaining retries) runs out the
source returns `[None, None]`, modelled as `none`, without checking the
condition again. -/
def detect_go (rpcOn : String → Bool) (devices : List String) (total : Nat) :
    Nat → List String → Option String → List String →
      List SessEvent × Option (Option String × List String)
  | 0, _, _, _ => ([], none)
  | fuel + 1, detected, server, clients =>
    if clients.length + 1 = total then ([], some (server, clients))
    else
      let p := detect_pass rpcOn devices detected server clients
      let r := detect_go rpcOn devices total fuel p.2.1 p.2.2.1 p.2.2.2
      (p.1 ++ r.1, r.2)

/-- The detection phase of `detect_and_reconnect_devices`: the
device-count assertion followed by the classification loop with a
retry budget of 10.  A `none` plan is the `[None, None]`
detection-failure return. -/
def detect_classification (rpcOn : String → Bool) (devices : List String)
    (total : Nat) :
    Except PyError (List SessEvent × Option (Option String × List String)) :=
  if devices.length = total then
    Except.ok (detect_go rpcOn devices total 10 [] none [])
  else
    Except.error (PyError.assertionError
      "Number of connected Aria devices is not equal to the total number of devices requested for TicSync cleanup. ")

theorem detect_pass_no_disconnect (rpcOn : String → Bool) :
    ∀ (l detected : List String) (server : Option String) (clients : List String),
      List.countP SessEvent.isDisconnect
        (detect_pass rpcOn l detected server clients).1 = 0 := by
  intro l
  induction l with
  | nil => intro detected server clients; rfl
  | cons s rest ih =>
      intro detected server clients
      unfold detect_pass
      by_cases hmem : s ∈ detected
      · simp only [if_pos hmem]; exact ih detected server clients
      · simp only [if_neg hmem, List.countP_cons]
        have : SessEvent.isDisconnect (SessEvent.connect s) = false := rfl
        simp [this, ih]

/-- C6 amended: no run of the classification loop ever emits a
disconnect event — the detection phase opens sessions with
`device_client.connect()` but never explicitly closes one. -/
theorem c6_detection_never_disconnects (rpcOn : String → Bool)
    (devices : List String) (total : Nat) :
    ∀ (fuel : Nat) (detected : List String) (server : Option String)
      (clients : List String),
      List.countP SessEvent.isDisconnect
        (detect_go rpcOn devices total fuel detected server clients).1 = 0 := by
  intro fuel
  induction fuel with
  | zero => intro detected server clients; rfl
  | succ n ih =>
      intro detected server clients
      unfold detect_go
      by_cases hlen : clients.length + 1 = total
      · simp [if_pos hlen]
      · simp only [if_neg hlen, List.countP_append]
        rw [detect_pass_no_disconnect, ih]

/-- C6 counterexample: a concrete detection run (two devices, the
second one RPC-enabled) opens two sessions and closes none, so connect
and disconnect calls are not paired within the operation. -/
theorem c6_detection_leaves_sessions_open :
    detect_classification (fun s => s == "serialB") ["serialA", "serialB"] 2
      = Except.ok ([SessEvent.connect "serialA", SessEvent.connect "serialB"],
          some (some "serialB", ["serialA"]))
    ∧ List.countP SessEvent.isDisconnect
        [SessEvent.connect "serialA", SessEvent.connect "serialB"] = 0 :=
  ⟨rfl, rfl⟩

/-- C1 counterexample: two attached devices, neither reporting DDS-RPC
On; detection exhausts its 10 retries and returns the `[None, None]`
failure — no serial is classified as Server at all. -/
theorem c1_no_rpc_on_detection_fails :
    detect_classification (fun _ => false) ["serialA", "serialB"] 2
      = Except.ok ([SessEvent.connect "serialA", SessEvent.connect "serialB"], none) := rfl

theorem detect_pass_spec (rpcOn : String → Bool) :
    ∀ (l detected : List String) (server : Option String) (clients : List String),
      (∀ s ∈ l, s ∉ detected) → l.Nodup →
      detect_pass rpcOn l detected server clients =
        (l.map SessEvent.connect, detected ++ l,
          l.foldl (fun acc s => if rpcOn s then some s else acc) server,
          clients ++ l.filter fun s => !rpcOn s) := by
  intro l
  induction l with
  | nil => intro detected server clients _ _; simp [detect_pass]
  | cons s rest ih =>
      intro detected server clients hdisj hnd
      have hs : s ∉ detected := hdisj s (List.mem_cons_self s rest)
      have hdisj' : ∀ x ∈ rest, x ∉ detected ++ [s] := by
        intro x hx
        rw [List.mem_append, List.mem_singleton]
        rintro (h | h)
        · exact hdisj x (List.mem_cons_of_mem s hx) h
        · exact (List.nodup_cons.mp hnd).1 (h ▸ hx)
      have hnd' : rest.Nodup := (List.nodup_cons.mp hnd).2
      unfold detect_pass
      simp only [if_neg hs]
      rw [ih (detected ++ [s])
        (if rpcOn s then some s else server)
        (clients ++ if rpcOn s then [] else [s]) hdisj' hnd']
      by_cases hr : rpcOn s <;>
        simp [hr, List.filter_cons, List.append_assoc, List.foldl_cons]

theorem foldl_classify_of_filter_nil (rpcOn : String → Bool) :
    ∀ (l : List String) (acc : Option String),
      l.filter (fun s => rpcOn s) = [] →
      l.foldl (fun acc s => if rpcOn s then some s else acc) acc = acc := by
  intro l
  induction l with
  | nil => intro acc _; rfl
  | cons s rest ih =>
      intro acc hf
      rw [List.filter_cons] at hf
      by_cases hr : rpcOn s
      · simp [hr] at hf
      · simp only [hr, if_neg] at hf ⊢
        simp only [List.foldl_cons, if_neg hr]
        exact ih acc (by simpa using hf)

theorem foldl_classify_unique (rpcOn : String → Bool) :
    ∀ (l : List String) (acc : Option String) (d : String),
      l.filter (fun s => rpcOn s) = [d] →
      l.foldl (fun acc s => if rpcOn s then some s else acc) acc = some d := by
  intro l
  induction l with
  | nil => intro acc d hf; simp at hf
  | cons s rest ih =>
      intro acc d hf
      rw [List.filter_cons] at hf
      by_cases hr : rpcOn s
      · simp only [hr, if_pos] at hf
        obtain ⟨hd, htl⟩ := List.cons_eq_cons.mp hf
        rw [List.foldl_cons, if_pos hr, hd]
        exact foldl_classify_of_filter_nil rpcOn rest (some d) htl
      · simp only [hr] at hf ⊢
        rw [List.foldl_cons, if_neg hr]
        exact ih acc d (by simpa using hf)

theorem filter_length_split (rpcOn : String → Bool) :
    ∀ l : List String,
      (l.filter fun s => rpcOn s).length + (l.filter fun s => !rpcOn s).length
        = l.length := by
  intro l
  induction l with
  | nil => rfl
  | cons s rest ih =>
      by_cases hr : rpcOn s <;> simp [List.filter_cons, hr] <;> omega

/-- C1 amended: for every total device count of at least 2 and every
attached serial set of exactly that size in which exactly one device
reports DDS-RPC On, the detection phase terminates (in its first pass)
classifying that device as the Server and the other `total - 1` serials
as Clients. -/
theorem c1_detection_unique_rpc_server (rpcOn : String → Bool)
    (devices : List String) (d : String) (hnd : devices.Nodup)
    (h2 : 2 ≤ devices.length)
    (hone : devices.filter (fun s => rpcOn s) = [d]) :
    detect_classification rpcOn devices devices.length
      = Except.ok (devices.map SessEvent.connect,
          some (some d, devices.filter fun s => !rpcOn s))
    ∧ (devices.filter fun s => !rpcOn s).length = devices.length - 1 := by
  have hsplit := filter_length_split rpcOn devices
  rw [hone] at hsplit
  simp only [List.length_singleton] at hsplit
  have hlenCl : (devices.filter fun s => !rpcOn s).length = devices.length - 1 := by
    omega
  refine ⟨?_, hlenCl⟩
  unfold detect_classification
  rw [if_pos rfl]
  congr 1
  show detect_go rpcOn devices devices.length 10 [] none [] = _
  unfold detect_go
  have hc1 : ¬ (List.length ([] : List String) + 1 = devices.length) := by
    simp only [List.length_nil]
    omega
  simp only [if_neg hc1]
  rw [detect_pass_spec rpcOn devices [] none [] (by simp) hnd]
  dsimp only
  rw [foldl_classify_unique rpcOn devices none d hone]
  simp only [List.nil_append]
  unfold detect_go
  have hc2 : (devices.filter fun s => !rpcOn s).length + 1 = devices.length := by
    omega
  simp [hc2]

/-- Witness for C1 (the spec section 8 scenario): three attached
devices, the middle one already RPC-enabled, are classified as one
Server and two Clients in a single pass. -/
theorem c1_detection_unique_rpc_server_witness :
    detect_classification (fun s => s == "serialB")
        ["serialA", "serialB", "serialC"] 3
      = Except.ok ([SessEvent.connect "serialA", SessEvent.connect "serialB",
            SessEvent.connect "serialC"],
          some (some "serialB", ["serialA", "serialC"]))
    ∧ (2 : Nat) = 3 - 1 := by
  have h := c1_detection_unique_rpc_server (fun s => s == "serialB")
    ["serialA", "serialB", "serialC"] "serialB" (by decide) (by decide) (by decide)
  exact ⟨h.1, rfl⟩

/-! ## Operator argument handling

`ticsync_recording.py` parses `--server` / `--client` (append + nargs,
hence optional lists of string lists), `--total_num_devices` and
`--profile`; `ticsync_cleanup.py` parses `--server` (a single string),
`--clients` and `--total_num_devices`.  Both entry points validate the
combinations with `assert` statements; the embeddings below reproduce
those assertions and the plan construction of
`get_device_serial_and_profile_names` exactly. -/

/-- The argparse namespace of `ticsync_recording.py`. -/
structure RecordingArgs where
  server_serial_and_profile_name : Option (List (List String))
  client_serial_and_profile_names : Option (List (List String))
  total_num_devices : Option Nat
  profile : Option String
deriving DecidableEq, Repr

/-- The argparse namespace of `ticsync_cleanup.py`. -/
structure CleanupArgs where
  server_serial : Option String
  client_serials : Option (List (List String))
  total_num_devices : Option Nat
deriving DecidableEq, Repr

/-- `ticsync_recording.get_device_serial_and_profile_names(args,
device_client)`: the two validation assertions, then either the explicit
plan (server option must name exactly one device), the inferred plan
from `usb_devices` (first listed device becomes the server, all on the
shared profile — the `getD` default is never read because the second
assertion makes `profile` present whenever `total_num_devices` is), or
the `[None, None]` fallthrough. -/
def get_device_serial_and_profile_names (args : RecordingArgs)
    (usb_devices : List (String × String)) :
    Except PyError (Option (List String) × Option (List (List String))) :=
  if ¬ ((args.server_serial_and_profile_name = none
          ∧ args.client_serial_and_profile_names = none)
        ∨ (args.server_serial_and_profile_name ≠ none
          ∧ args.client_serial_and_profile_names ≠ none)) then
    Except.error (PyError.assertionError
      "Server and client devices options can only be specified together")
  else if ¬ ((args.total_num_devices = none ∧ args.profile = none)
        ∨ (args.total_num_devices ≠ none ∧ args.profile ≠ none)) then
    Except.error (PyError.assertionError
      "Total number of devices and recording profile can only be specified together")
  else
    match args.server_serial_and_profile_name,
        args.client_serial_and_profile_names with
    | some srv, some cl =>
        if srv.length ≠ 1 then
          Except.error (PyError.assertionError
            "Only one device can be specified as the server device")
        else
          match srv with
          | p :: _ => Except.ok (some p, some cl)
          | [] => Except.error PyError.indexError
    | _, _ =>
        match args.total_num_devices with
        | some n =>
            if usb_devices.length ≠ n then
              Except.error (PyError.assertionError
                "Number of connected Aria devices is not equal to the total number of devices requested for TicSync cleanup. ")
            else
              match usb_devices with
              | (s0, _) :: rest =>
                  Except.ok (some [s0, args.profile.getD ""],
                    some (rest.map fun pr => [pr.1, args.profile.getD ""]))
              | [] => Except.error PyError.indexError
        | none => Except.ok (none, none)

/-- The argument-handling prefix of `ticsync_recording.main`: the
total-count assertion, the call to `get_device_serial_and_profile_names`,
then the subscripts `server_serial_and_profile_name[0]` and `[1]` and
the iteration over the client plan list.  Subscripting or iterating the
`None` plan raises `TypeError`, exactly as in Python. -/
def recording_main_plan (args : RecordingArgs)
    (usb_devices : List (String × String)) :
    Except PyError (String × String × List (List String)) :=
  if ¬ (args.total_num_devices = none ∨ 1 < args.total_num_devices.getD 0) then
    Except.error (PyError.assertionError
      "Total number of devices specified cannot be less than 2")
  else
    match get_device_serial_and_profile_names args usb_devices with
    | Except.error e => Except.error e
    | Except.ok (serverPlan, clientPlans) =>
        match serverPlan with
        | none =>
            Except.error (PyError.typeError "NoneType object is not subscriptable")
        | some plan =>
            match plan.get? 0, plan.get? 1 with
            | some serial, some profileName =>
                match clientPlans with
                | none =>
                    Except.error (PyError.typeError "NoneType object is not iterable")
                | some cps => Except.ok (serial, profileName, cps)
            | _, _ => Except.error PyError.indexError

/-- The two validation assertions at the top of `ticsync_cleanup.main`,
executed before any device is enumerated or connected. -/
def cleanup_args_validate (a : CleanupArgs) : Except PyError Unit :=
  if ¬ ((a.server_serial = none ∧ a.client_serials = none)
        ∨ (a.server_serial ≠ none ∧ a.client_serials ≠ none)) then
    Except.error (PyError.assertionError
      "Server and client devices options can only be specified together")
  else if ¬ ((a.total_num_devices ≠ none ∧ a.server_serial = none)
        ∨ (a.total_num_devices = none ∧ a.server_serial ≠ none)) then
    Except.error (PyError.assertionError
      "Please either specify total number of devices or server and client device serials")
  else Except.ok ()

/-- C9: with neither option shape supplied, every validation assertion
passes, `get_device_serial_and_profile_names` returns the `[None, None]`
plan, and the run fails only afterwards with the `TypeError` raised by
subscripting the `None` server plan. -/
theorem c9_missing_options_fail_late (usb_devices : List (String × String)) :
    get_device_serial_and_profile_names ⟨none, none, none, none⟩ usb_devices
      = Except.ok (none, none)
    ∧ recording_main_plan ⟨none, none, none, none⟩ usb_devices
      = Except.error (PyError.typeError "NoneType object is not subscriptable") := by
  constructor
  · rfl
  · rfl

/-- C8 counterexample: the recording entry point, given both the
explicit server/client assignment and the total-count/profile pair
together, passes every validation assertion and returns the explicit
plan rather than failing. -/
theorem c8_recording_accepts_both_shapes :
    get_device_serial_and_profile_names
        ⟨some [["serial1", "profileA"]], some [["serial2", "profileA"]],
          some 2, some "profileA"⟩ []
      = Except.ok (some ["serial1", "profileA"], some [["serial2", "profileA"]]) := rfl

/-- C8 amended: supplying the two mutually exclusive option shapes
together is rejected at argument-validation time by the cleanup entry
point, while the recording entry point accepts the combination and the
explicit server/client assignment takes precedence (the total-count
option has no effect there). -/
theorem c8_validation_split (ca : CleanupArgs)
    (hts : ca.total_num_devices ≠ none) (hss : ca.server_serial ≠ none)
    (p : List String) (cl : List (List String)) (n : Nat) (prof : String)
    (usb : List (String × String)) :
    (∃ m, cleanup_args_validate ca = Except.error (PyError.assertionError m))
    ∧ get_device_serial_and_profile_names ⟨some [p], some cl, some n, some prof⟩ usb
      = Except.ok (some p, some cl) := by
  constructor
  · unfold cleanup_args_validate
    rcases hcl : ca.client_serials with _ | cls
    · have hA : ¬ ((ca.server_serial = none
            ∧ (none : Option (List (List String))) = none)
          ∨ (ca.server_serial ≠ none
            ∧ (none : Option (List (List String))) ≠ none)) := by
        simpa using hss
      rw [if_pos hA]
      exact ⟨_, rfl⟩
    · have hA : ¬ ¬ ((ca.server_serial = none ∧ some cls = none)
          ∨ (ca.server_serial ≠ none ∧ some cls ≠ none)) := by
        simp [hss]
      rw [if_neg hA]
      have hB : ¬ ((ca.total_num_devices ≠ none ∧ ca.server_serial = none)
          ∨ (ca.total_num_devices = none ∧ ca.server_serial ≠ none)) := by
        simp [hss, hts]
      rw [if_pos hB]
      exact ⟨_, rfl⟩
  · rfl

/-- Witness for C8 (amended) at concrete arguments: cleanup rejects the
combined shapes with an assertion error while recording returns the
explicit plan. -/
theorem c8_validation_split_witness :
    (∃ m, cleanup_args_validate ⟨some "serial1", some [["serial2"]], some 2⟩
        = Except.error (PyError.assertionError m))
    ∧ get_device_serial_and_profile_names
        ⟨some [["serial1", "profileA"]], some [["serial2", "profileA"]],
          some 2, some "profileA"⟩ []
      = Except.ok (some ["serial1", "profileA"], some [["serial2", "profileA"]]) :=
  c8_validation_split ⟨some "serial1", some [["serial2"]], some 2⟩
    (by simp) (by simp) ["serial1", "profileA"] [["serial2", "profileA"]]
    2 "profileA" []

/-! ## Client Wi-Fi setup in `ticsync_recording.main` -/

/-- A Device Link operation issued by the per-client setup loop body. -/
inductive ClientSetupAction
  | connectDevice
  | connectWifi (ssid passphrase : String)
  | keepWifiOn (b : Bool)
  | setRecordingConfig (profile : String)
deriving DecidableEq, Repr

/-- The part of `wifi_status` the setup loop reads: whether Wi-Fi is
enabled and the SSID of the currently joined network. -/
structure WifiStatus where
  enabled : Bool
  ssid : String
deriving DecidableEq, Repr

/-- The per-client body of the setup loop in `ticsync_recording.main`,
as the sequence of Device Link operations it performs: connect to the
client; then, only when the client is not already on the server hotspot
(Wi-Fi disabled or joined to a different SSID), `connect_wifi` to the
hotspot and `keep_wifi_on(True)`; finally set the TicSyncClient
recording config. -/
def client_setup_actions (wifi : WifiStatus)
    (hotspotSsid hotspotPass profile : String) : List ClientSetupAction :=
  ClientSetupAction.connectDevice ::
    ((if wifi.enabled = false ∨ wifi.ssid ≠ hotspotSsid then
        [ClientSetupAction.connectWifi hotspotSsid hotspotPass,
         ClientSetupAction.keepWifiOn true]
      else []) ++ [ClientSetupAction.setRecordingConfig profile])

/-- C10: a client whose Wi-Fi is enabled and already joined to the
server hotspot SSID undergoes no Wi-Fi mutation during setup — neither
`connect_wifi` nor any `keep_wifi_on` is issued for it — and
`keep_wifi_on(True)` happens only for clients that were not already on
the hotspot. -/
theorem c10_no_wifi_mutation_when_joined (wifi : WifiStatus)
    (hotspotSsid hotspotPass profile : String) :
    (wifi.enabled = true → wifi.ssid = hotspotSsid →
      (∀ s p, ClientSetupAction.connectWifi s p
          ∉ client_setup_actions wifi hotspotSsid hotspotPass profile)
      ∧ ∀ b, ClientSetupAction.keepWifiOn b
          ∉ client_setup_actions wifi hotspotSsid hotspotPass profile)
    ∧ (ClientSetupAction.keepWifiOn true
          ∈ client_setup_actions wifi hotspotSsid hotspotPass profile →
        wifi.enabled = false ∨ wifi.ssid ≠ hotspotSsid) := by
  constructor
  · intro hen hss
    have hcond : ¬ (wifi.enabled = false ∨ wifi.ssid ≠ hotspotSsid) := by
      rw [hen, hss]
      simp
    constructor
    · intro s p
      unfold client_setup_actions
      rw [if_neg hcond]
      simp
    · intro b
      unfold client_setup_actions
      rw [if_neg hcond]
      simp
  · intro hmem
    by_cases hcond : wifi.enabled = false ∨ wifi.ssid ≠ hotspotSsid
    · exact hcond
    · exfalso
      unfold client_setup_actions at hmem
      rw [if_neg hcond] at hmem
      simp at hmem

/-- Witness for C10 at a concrete input: an enabled client already on
the hotspot SSID receives no `connect_wifi`. -/
theorem c10_no_wifi_mutation_when_joined_witness :
    ClientSetupAction.connectWifi "hotspot1" "pass1"
      ∉ client_setup_actions ⟨true, "hotspot1"⟩ "hotspot1" "pass1" "profileA" :=
  ((c10_no_wifi_mutation_when_joined ⟨true, "hotspot1"⟩ "hotspot1" "pass1"
      "profileA").1 rfl rfl).1 "hotspot1" "pass1"

end AriaTicSync
